import Mathlib

/-!
Verification of the mention-detection and suggestion engine of
`lexical-beautiful-mentions` against its specification.

The repository ships `src/plugin/src/BeautifulMentionsPluginProps.ts`, the typed
configuration surface of the plugin.  The data model below is embedded from that
file.  The engine itself (boundary classifier, trigger scanner, query
dispatcher, candidate assembler, presentation state machine, insertion
coordinator) is not part of the sources; wherever a definition models such a
missing piece its doc comment starts with `Modelled from the spec:`.
-/

/-- Embeds `BeautifulMentionsItemData` (BeautifulMentionsPluginProps.ts, line 3):
`string | boolean | number | null`.  TypeScript numbers are modelled as
integers; no claim computes with their numeric value. -/
inductive BeautifulMentionsItemData where
  | str : String → BeautifulMentionsItemData
  | bool : Bool → BeautifulMentionsItemData
  | num : Int → BeautifulMentionsItemData
  | null : BeautifulMentionsItemData
deriving DecidableEq

/-- Embeds `BeautifulMentionsMetadata` (lines 5-7): an open-ended mapping from
string keys to `BeautifulMentionsItemData`, modelled as an association list. -/
abbrev BeautifulMentionsMetadata := List (String × BeautifulMentionsItemData)

/-- Embeds `BeautifulMentionsItem` (lines 65-67): either a bare display string
or a record with a mandatory `value` together with additional metadata. -/
inductive BeautifulMentionsItem where
  | plain : String → BeautifulMentionsItem
  | record : String → BeautifulMentionsMetadata → BeautifulMentionsItem
deriving DecidableEq

/-- A JSON-like value universe used to state what "no nested structures" means:
item data may only ever denote a leaf, never an object or an array. -/
inductive JsonLike where
  | jstr : String → JsonLike
  | jbool : Bool → JsonLike
  | jnum : Int → JsonLike
  | jnull : JsonLike
  | jobj : List (String × JsonLike) → JsonLike
  | jarr : List JsonLike → JsonLike

/-- The denotation of embedded item data inside the JSON-like universe. -/
def BeautifulMentionsItemData.toJson : BeautifulMentionsItemData → JsonLike
  | .str s => .jstr s
  | .bool b => .jbool b
  | .num n => .jnum n
  | .null => .jnull

/-- A JSON-like value is a leaf when it is not an object and not an array. -/
def JsonLike.isLeaf : JsonLike → Bool
  | .jobj _ => false
  | .jarr _ => false
  | _ => true

/-- Embeds `BeautifulMentionsMenuItem` (lines 12-32): the normalized menu-mode
candidate with `trigger`, `value`, `displayValue` and optional `data`. -/
structure BeautifulMentionsMenuItem where
  trigger : String
  value : String
  displayValue : String
  data : Option BeautifulMentionsMetadata := none
deriving DecidableEq

/-- Embeds the `itemType` discriminator of `BeautifulMentionsComboboxItem`
(line 43): `"trigger" | "value" | "additional"`. -/
inductive ComboboxItemType where
  | trigger
  | value
  | additional
deriving DecidableEq

/-- Embeds `BeautifulMentionsComboboxItem` (lines 37-58). -/
structure BeautifulMentionsComboboxItem where
  itemType : ComboboxItemType
  value : String
  displayValue : String
  data : Option BeautifulMentionsMetadata := none
deriving DecidableEq

/-- Embeds the presence of every mode-specific prop of the two shapes
`BeautifulMentionsMenuComponentsProps` (lines 185-234) and
`BeautifulMentionsMenuCommandComponentProps` (lines 236-301).  A field is
`true` exactly when the corresponding prop is supplied by the caller; the
shared `BeautifulMentionsProps` fields are allowed in both shapes and hence
irrelevant to the mode arbitration. -/
structure PluginPropsFields where
  menuAnchorClassName : Bool
  menuComponent : Bool
  menuItemComponent : Bool
  emptyComponent : Bool
  insertOnBlur : Bool
  onMenuOpen : Bool
  onMenuClose : Bool
  onMenuItemSelect : Bool
  combobox : Bool
  comboboxOpen : Bool
  comboboxAnchor : Bool
  comboboxAnchorClassName : Bool
  comboboxComponent : Bool
  comboboxItemComponent : Bool
  comboboxAdditionalItems : Bool
  onComboboxItemSelect : Bool
  onComboboxOpen : Bool
  onComboboxClose : Bool
  onComboboxFocusChange : Bool
deriving DecidableEq

/-- Embeds `BeautifulMentionsMenuComponentsProps` (lines 185-234): the menu
shape marks every combobox-mode prop as `never`, so a value of that type has
none of them supplied. -/
def isMenuComponentsShape (p : PluginPropsFields) : Bool :=
  !p.combobox && !p.comboboxOpen && !p.comboboxAnchor &&
    !p.comboboxAnchorClassName && !p.comboboxComponent &&
    !p.comboboxItemComponent && !p.comboboxAdditionalItems &&
    !p.onComboboxItemSelect && !p.onComboboxOpen && !p.onComboboxClose &&
    !p.onComboboxFocusChange

/-- Embeds `BeautifulMentionsMenuCommandComponentProps` (lines 236-301): the
combobox shape requires `combobox: true` and marks every menu-mode prop as
`never`. -/
def isMenuCommandComponentShape (p : PluginPropsFields) : Bool :=
  p.combobox && !p.menuAnchorClassName && !p.menuComponent &&
    !p.menuItemComponent && !p.emptyComponent && !p.insertOnBlur &&
    !p.onMenuOpen && !p.onMenuClose && !p.onMenuItemSelect

/-- Embeds `BeautifulMentionsPluginWithCompProps` (lines 303-307): the union of
the two mutually exclusive prop shapes. -/
def isPluginWithCompProps (p : PluginPropsFields) : Bool :=
  isMenuComponentsShape p || isMenuCommandComponentShape p

/-- A menu-mode option is supplied: one of the props that only the menu shape
admits (lines 189-222). -/
def hasMenuModeOption (p : PluginPropsFields) : Bool :=
  p.menuAnchorClassName || p.menuComponent || p.menuItemComponent ||
    p.emptyComponent || p.insertOnBlur || p.onMenuOpen || p.onMenuClose ||
    p.onMenuItemSelect

/-- A combobox-mode option is supplied: one of the props that only the
combobox shape admits (lines 244-292). -/
def hasComboboxModeOption (p : PluginPropsFields) : Bool :=
  p.combobox || p.comboboxOpen || p.comboboxAnchor ||
    p.comboboxAnchorClassName || p.comboboxComponent ||
    p.comboboxItemComponent || p.comboboxAdditionalItems ||
    p.onComboboxItemSelect || p.onComboboxOpen || p.onComboboxClose ||
    p.onComboboxFocusChange

/-- The error taxonomy of the specification (section 7). -/
inductive ConfigError where
  | ConfigurationConflict
  | InvalidBoundaryConfiguration
deriving DecidableEq

/-- Modelled from the spec: the runtime construction guard that a
reimplementation must perform ("supplying both a menu-mode option and a
combobox-mode option in configuration yields a `ConfigurationConflict` at
setup, before any scan occurs").  The engine implementation is not under
`src/`; the typed surface encodes the same exclusion statically through the
`never` fields. -/
def constructPluginConfig (p : PluginPropsFields) :
    Except ConfigError PluginPropsFields :=
  if hasMenuModeOption p && hasComboboxModeOption p then
    .error .ConfigurationConflict
  else
    .ok p

theorem menuShape_no_combobox_option (p : PluginPropsFields)
    (h : isMenuComponentsShape p = true) : hasComboboxModeOption p = false := by
  simp only [isMenuComponentsShape, Bool.and_eq_true, Bool.not_eq_true'] at h
  obtain ⟨⟨⟨⟨⟨⟨⟨⟨⟨⟨h1, h2⟩, h3⟩, h4⟩, h5⟩, h6⟩, h7⟩, h8⟩, h9⟩, h10⟩, h11⟩ := h
  simp [hasComboboxModeOption, h1, h2, h3, h4, h5, h6, h7, h8, h9, h10, h11]

theorem commandShape_no_menu_option (p : PluginPropsFields)
    (h : isMenuCommandComponentShape p = true) : hasMenuModeOption p = false := by
  simp only [isMenuCommandComponentShape, Bool.and_eq_true, Bool.not_eq_true'] at h
  obtain ⟨⟨⟨⟨⟨⟨⟨⟨h1, h2⟩, h3⟩, h4⟩, h5⟩, h6⟩, h7⟩, h8⟩, h9⟩ := h
  simp [hasMenuModeOption, h2, h3, h4, h5, h6, h7, h8, h9]

theorem menuShape_not_commandShape (p : PluginPropsFields)
    (h : isMenuComponentsShape p = true) :
    isMenuCommandComponentShape p = false := by
  simp only [isMenuComponentsShape, Bool.and_eq_true, Bool.not_eq_true'] at h
  simp [isMenuCommandComponentShape, h.1.1.1.1.1.1.1.1.1.1]

/-- Claim C1: supplying both a menu-mode option and a combobox-mode option is
rejected as a `ConfigurationConflict` at construction time and matches neither
prop shape of the typed union; conversely a configuration admitted by the
union satisfies exactly one of the two mutually exclusive shapes. -/
theorem c1_mode_options_mutually_exclusive (p : PluginPropsFields) :
    (hasMenuModeOption p = true → hasComboboxModeOption p = true →
      constructPluginConfig p = .error .ConfigurationConflict ∧
        isPluginWithCompProps p = false) ∧
    (isPluginWithCompProps p = true →
      (isMenuComponentsShape p = true ∧ isMenuCommandComponentShape p = false) ∨
      (isMenuComponentsShape p = false ∧
        isMenuCommandComponentShape p = true)) := by
  constructor
  · intro hm hc
    constructor
    · simp [constructPluginConfig, hm, hc]
    · simp only [isPluginWithCompProps, Bool.or_eq_false_iff]
      constructor
      · by_contra h
        rw [Bool.not_eq_false] at h
        exact absurd (menuShape_no_combobox_option p h) (by simp [hc])
      · by_contra h
        rw [Bool.not_eq_false] at h
        exact absurd (commandShape_no_menu_option p h) (by simp [hm])
  · intro hv
    rcases Bool.or_eq_true _ _ |>.mp hv with h | h
    · exact Or.inl ⟨h, menuShape_not_commandShape p h⟩
    · rcases hmc : isMenuComponentsShape p with _ | _
      · exact Or.inr ⟨rfl, h⟩
      · exact Or.inl ⟨rfl, menuShape_not_commandShape p hmc⟩

/-- A configuration supplying both `onMenuOpen` (menu mode) and `combobox`
(combobox mode). -/
def conflictingProps : PluginPropsFields where
  menuAnchorClassName := false
  menuComponent := false
  menuItemComponent := false
  emptyComponent := false
  insertOnBlur := false
  onMenuOpen := true
  onMenuClose := false
  onMenuItemSelect := false
  combobox := true
  comboboxOpen := false
  comboboxAnchor := false
  comboboxAnchorClassName := false
  comboboxComponent := false
  comboboxItemComponent := false
  comboboxAdditionalItems := false
  onComboboxItemSelect := false
  onComboboxOpen := false
  onComboboxClose := false
  onComboboxFocusChange := false

/-- Witness for C1 at a concrete conflicting configuration. -/
theorem c1_mode_options_mutually_exclusive_witness :
    constructPluginConfig conflictingProps = .error .ConfigurationConflict ∧
      isPluginWithCompProps conflictingProps = false :=
  (c1_mode_options_mutually_exclusive conflictingProps).1 (by decide) (by decide)

/-- Claim C10: every `BeautifulMentionsItem` is either a bare display string or
a record with a mandatory string value plus a mapping whose entries denote
JSON leaves only (string, boolean, number or null) — never nested objects or
arrays; the explicit `null` alternative of the code is part of the leaf set. -/
theorem c10_item_shape_invariant (item : BeautifulMentionsItem) :
    (∃ s, item = .plain s) ∨
      (∃ v md, item = .record v md ∧
        ∀ p ∈ md, (BeautifulMentionsItemData.toJson p.2).isLeaf = true) := by
  cases item with
  | plain s => exact Or.inl ⟨s, rfl⟩
  | record v md =>
    refine Or.inr ⟨v, md, rfl, ?_⟩
    intro p _
    cases p.2 <;> rfl

/-- Embeds the per-trigger resolution of `menuItemLimit` (lines 151-157):
`number | false`, where `false` means no limit. -/
inductive MenuItemLimit where
  | num : Int → MenuItemLimit
  | off : MenuItemLimit
deriving DecidableEq

/-- Embeds the per-trigger resolution of `creatable` (lines 141-150):
`boolean | string`, where a string is the label template. -/
inductive CreatableValue where
  | flag : Bool → CreatableValue
  | template : String → CreatableValue
deriving DecidableEq

/-- Embeds the full `creatable` prop (line 150): a single value or a map from
trigger to value. -/
inductive CreatableConfig where
  | single : CreatableValue → CreatableConfig
  | perTrigger : List (String × CreatableValue) → CreatableConfig
deriving DecidableEq

/-- Modelled from the spec: resolving the `creatable` prop for one trigger;
a trigger absent from a per-trigger map gets the default `false` (line 148). -/
def resolveCreatable (c : CreatableConfig) (trigger : String) : CreatableValue :=
  match c with
  | .single v => v
  | .perTrigger m =>
    match m.lookup trigger with
    | some v => v
    | none => .flag false

/-- Whether the resolved `creatable` value enables the synthetic entry: any
truthy flag or any label template. -/
def creatableEnabled : CreatableValue → Bool
  | .flag b => b
  | .template _ => true

/-- The placeholder `\x7b\x7bname\x7d\x7d` of the creatable label template
(line 145). -/
def creatableNamePattern : List Char := "\x7b\x7bname\x7d\x7d".toList

/-- Modelled from the spec: substitution of the `\x7b\x7bname\x7d\x7d`
placeholder by the query, on character lists.  The fuel argument is the length
of the template, which bounds the recursion: every step consumes at least one
template character. -/
def substNameFuel (query : List Char) : Nat → List Char → List Char
  | 0, l => l
  | _ + 1, [] => []
  | fuel + 1, c :: cs =>
    if (c :: cs).take 8 = creatableNamePattern then
      query ++ substNameFuel query fuel (cs.drop 7)
    else
      c :: substNameFuel query fuel cs

/-- Modelled from the spec: the template with `\x7b\x7bname\x7d\x7d` replaced
by the user input (line 145). -/
def substName (template query : String) : String :=
  ⟨substNameFuel query.toList template.toList.length template.toList⟩

/-- Modelled from the spec: the default creatable label template
"Add \x27\x7b\x7bname\x7d\x7d\x27". -/
def defaultCreatableTemplate : String := "Add \x27\x7b\x7bname\x7d\x7d\x27"

/-- Modelled from the spec: the display value of the synthetic creatable
entry — the caller-supplied template when one is given, otherwise the default
template, with the placeholder substituted by the query. -/
def creatableDisplayValue (v : CreatableValue) (query : String) : String :=
  match v with
  | .flag _ => substName defaultCreatableTemplate query
  | .template t => substName t query

/-- Modelled from the spec: step (3) of the Candidate Assembler pipeline —
when `creatable` is enabled for the trigger and the query is non-empty and
does not exactly match an existing item's value, append one synthetic entry
whose display is the substituted template. -/
def appendCreatableEntry (creatable : CreatableConfig) (trigger query : String)
    (items : List BeautifulMentionsMenuItem) : List BeautifulMentionsMenuItem :=
  let v := resolveCreatable creatable trigger
  if creatableEnabled v && !(query == "") &&
      !(items.any (fun i => i.value == query)) then
    items ++ [{ trigger := trigger, value := query,
                displayValue := creatableDisplayValue v query, data := none }]
  else
    items

/-- Modelled from the spec: step (2) of the Candidate Assembler pipeline —
append the document's current mentions for the trigger, deduplicated against
step (1) by the composite key `trigger + value`. -/
def mergeCurrentMentions (showCurrent : Bool)
    (currentMentions retrieved : List BeautifulMentionsMenuItem) :
    List BeautifulMentionsMenuItem :=
  if showCurrent then
    retrieved ++ currentMentions.filter (fun m =>
      !(retrieved.any (fun i => i.trigger ++ i.value == m.trigger ++ m.value)))
  else
    retrieved

/-- Modelled from the spec: step (5) of the Candidate Assembler pipeline —
truncate to the configured `menuItemLimit`; `false` or a negative number
means unlimited. -/
def applyMenuItemLimit (limit : MenuItemLimit)
    (items : List BeautifulMentionsMenuItem) : List BeautifulMentionsMenuItem :=
  match limit with
  | .off => items
  | .num n => if n < 0 then items else items.take n.toNat

/-- Modelled from the spec: the assembled menu-mode candidate list before
truncation — retrieved items, then deduplicated current mentions, then the
synthetic creatable entry. -/
def preTruncationMenuItems (creatable : CreatableConfig) (showCurrent : Bool)
    (currentMentions : List BeautifulMentionsMenuItem) (trigger query : String)
    (retrieved : List BeautifulMentionsMenuItem) :
    List BeautifulMentionsMenuItem :=
  appendCreatableEntry creatable trigger query
    (mergeCurrentMentions showCurrent currentMentions retrieved)

/-- Modelled from the spec: the Candidate Assembler for the menu mode —
truncation is applied last, after the creatable entry has been appended. -/
def assembleMenuItems (creatable : CreatableConfig) (limit : MenuItemLimit)
    (showCurrent : Bool) (currentMentions : List BeautifulMentionsMenuItem)
    (trigger query : String) (retrieved : List BeautifulMentionsMenuItem) :
    List BeautifulMentionsMenuItem :=
  applyMenuItemLimit limit
    (preTruncationMenuItems creatable showCurrent currentMentions trigger query
      retrieved)

/-- Claim C2: the assembled list is the truncation of the pre-truncation list
(creatable entry already appended); with limit `num n`, `0 ≤ n` and more than
`n` pre-truncation candidates the presented length is exactly `n`; with limit
`off` or a negative number the presented length is the full candidate count. -/
theorem c2_menu_item_limit (creatable : CreatableConfig) (limit : MenuItemLimit)
    (showCurrent : Bool) (currentMentions : List BeautifulMentionsMenuItem)
    (trigger query : String) (retrieved : List BeautifulMentionsMenuItem)
    (n : Int) :
    assembleMenuItems creatable limit showCurrent currentMentions trigger query
        retrieved =
      applyMenuItemLimit limit
        (preTruncationMenuItems creatable showCurrent currentMentions trigger
          query retrieved) ∧
    (limit = .num n → 0 ≤ n →
      n.toNat < (preTruncationMenuItems creatable showCurrent currentMentions
        trigger query retrieved).length →
      (assembleMenuItems creatable limit showCurrent currentMentions trigger
        query retrieved).length = n.toNat) ∧
    (limit = .off →
      (assembleMenuItems creatable limit showCurrent currentMentions trigger
        query retrieved).length =
      (preTruncationMenuItems creatable showCurrent currentMentions trigger
        query retrieved).length) ∧
    (limit = .num n → n < 0 →
      (assembleMenuItems creatable limit showCurrent currentMentions trigger
        query retrieved).length =
      (preTruncationMenuItems creatable showCurrent currentMentions trigger
        query retrieved).length) := by
  refine ⟨rfl, ?_, ?_, ?_⟩
  · intro hl hn hlen
    subst hl
    simp only [assembleMenuItems, applyMenuItemLimit, if_neg (not_lt.mpr hn)]
    rw [List.length_take]
    omega
  · intro hl
    subst hl
    rfl
  · intro hl hn
    subst hl
    simp [assembleMenuItems, applyMenuItemLimit, hn]

/-- Witness for C2: limit 1 with two pre-truncation candidates (one organic
match plus the creatable entry) presents exactly one item, pushing the
creatable entry out. -/
theorem c2_menu_item_limit_witness :
    (assembleMenuItems (.single (.flag true)) (.num 1) false []
      "#" "u" [{ trigger := "#", value := "ur", displayValue := "ur" }]).length
      = 1 :=
  (c2_menu_item_limit (.single (.flag true)) (.num 1) false [] "#" "u"
    [{ trigger := "#", value := "ur", displayValue := "ur" }] 1).2.1
    rfl (by decide) (by decide)

/-- Embeds the default of `searchDelay` (lines 326-330): 250 milliseconds. -/
def defaultSearchDelay : Nat := 250

/-- Modelled from the spec: the search-mode debounce of the Query Dispatcher.
The input is the chronological list of `(arrival time, query)` changes; a
change starts a timer that fires `delay` time units later, and a further
change arriving strictly before the pending timer fires discards that timer
and restarts it.  The output is the list of queries for which a lookup is
actually dispatched. -/
def debounceDispatches (delay : Nat) : List (Nat × String) → List String
  | [] => []
  | (t, q) :: rest =>
    match rest with
    | [] => [q]
    | (t2, _) :: _ =>
      if t2 < t + delay then debounceDispatches delay rest
      else q :: debounceDispatches delay rest

/-- Claim C4: when every change of a non-empty sequence arrives within the
debounce window of its predecessor, exactly one lookup is dispatched and it
carries the final query value. -/
theorem c4_debounce_coalescing (delay : Nat) (changes : List (Nat × String))
    (c : Nat × String) (hlast : changes.getLast? = some c)
    (hwin : changes.Chain' (fun a b => b.1 < a.1 + delay)) :
    debounceDispatches delay changes = [c.2] := by
  induction changes with
  | nil => simp at hlast
  | cons x rest ih =>
    cases rest with
    | nil =>
      simp only [List.getLast?_singleton, Option.some_inj] at hlast
      subst hlast
      rfl
    | cons y rest2 =>
      rw [List.chain'_cons] at hwin
      rw [List.getLast?_cons_cons] at hlast
      have hstep : debounceDispatches delay (x :: y :: rest2) =
          debounceDispatches delay (y :: rest2) := by
        obtain ⟨x1, x2⟩ := x
        obtain ⟨y1, y2⟩ := y
        simp only [debounceDispatches, if_pos hwin.1]
      rw [hstep]
      exact ih hlast hwin.2

/-- Witness for C4 at the default delay: three changes 100 time units apart
coalesce into one lookup for the final query. -/
theorem c4_debounce_coalescing_witness :
    debounceDispatches defaultSearchDelay
      [(0, "a"), (100, "al"), (200, "ali")] = ["ali"] :=
  c4_debounce_coalescing defaultSearchDelay
    [(0, "a"), (100, "al"), (200, "ali")] (200, "ali") (by decide)
    (by simp [List.chain'_cons, defaultSearchDelay])

/-- Modelled from the spec: the mutable unit owned by the Query Dispatcher —
the generation counter of section 9 together with the active pair and the
item list currently presented. -/
structure QueryDispatcherState where
  generation : Nat
  activeTrigger : Option String := none
  activeQuery : Option String := none
  presented : List BeautifulMentionsItem := []
deriving DecidableEq

/-- An event observed by the Query Dispatcher: a new lookup is dispatched for
a `(trigger, query)` pair, or a lookup settles carrying the generation it
captured when it was dispatched. -/
inductive DispatchEvent where
  | dispatch : String → Option String → DispatchEvent
  | settle : Nat → List BeautifulMentionsItem → DispatchEvent
deriving DecidableEq

/-- Whether an event dispatches a new lookup. -/
def DispatchEvent.isNewLookup : DispatchEvent → Bool
  | .dispatch _ _ => true
  | .settle _ _ => false

/-- Modelled from the spec: the generation-counter discipline of sections 5
and 9 — each new `(trigger, query)` increments the counter; a settled lookup
is applied only when its captured generation still equals the current one,
otherwise the result is stale and silently discarded. -/
def dispatcherStep (s : QueryDispatcherState) : DispatchEvent → QueryDispatcherState
  | .dispatch t q =>
    { s with generation := s.generation + 1,
             activeTrigger := some t, activeQuery := q }
  | .settle g result =>
    if g = s.generation then { s with presented := result } else s

/-- The dispatcher run over a chronological event list. -/
def dispatcherRun (s : QueryDispatcherState) (evs : List DispatchEvent) :
    QueryDispatcherState :=
  evs.foldl dispatcherStep s

theorem dispatcherStep_generation_le (s : QueryDispatcherState)
    (e : DispatchEvent) : s.generation ≤ (dispatcherStep s e).generation := by
  cases e with
  | dispatch t q => simp [dispatcherStep]
  | settle g r =>
    simp only [dispatcherStep]
    split <;> simp

theorem dispatcherRun_generation_le (s : QueryDispatcherState)
    (evs : List DispatchEvent) :
    s.generation ≤ (dispatcherRun s evs).generation := by
  induction evs generalizing s with
  | nil => exact le_refl _
  | cons e rest ih =>
    exact le_trans (dispatcherStep_generation_le s e) (ih (dispatcherStep s e))

theorem dispatcherRun_generation_lt (s : QueryDispatcherState)
    (evs : List DispatchEvent) (h : evs.any DispatchEvent.isNewLookup = true) :
    s.generation < (dispatcherRun s evs).generation := by
  induction evs generalizing s with
  | nil => simp at h
  | cons e rest ih =>
    cases e with
    | dispatch t q =>
      have h1 : s.generation < (dispatcherStep s (.dispatch t q)).generation := by
        simp [dispatcherStep]
      exact lt_of_lt_of_le h1 (dispatcherRun_generation_le _ rest)
    | settle g r =>
      simp only [List.any_cons, DispatchEvent.isNewLookup, Bool.false_or] at h
      have h2 := ih (dispatcherStep s (.settle g r)) h
      exact lt_of_le_of_lt (dispatcherStep_generation_le s (.settle g r)) h2

/-- Claim C3: a lookup dispatched with captured generation `sA.generation`
that settles only after at least one newer lookup has been dispatched is
stale — applying its settlement leaves the dispatcher state, in particular
the presented item list, unchanged. -/
theorem c3_stale_result_discarded (sA : QueryDispatcherState)
    (evs : List DispatchEvent) (r : List BeautifulMentionsItem)
    (hB : evs.any DispatchEvent.isNewLookup = true) :
    dispatcherStep (dispatcherRun sA evs) (.settle sA.generation r) =
      dispatcherRun sA evs ∧
    (dispatcherStep (dispatcherRun sA evs)
        (.settle sA.generation r)).presented =
      (dispatcherRun sA evs).presented := by
  have hlt := dispatcherRun_generation_lt sA evs hB
  have hne : sA.generation ≠ (dispatcherRun sA evs).generation :=
    Nat.ne_of_lt hlt
  constructor
  · simp [dispatcherStep, hne]
  · simp [dispatcherStep, hne]

/-- Witness for C3: lookup A dispatched at generation 1 settles after a newer
lookup B was dispatched; A's result does not reach the presented list. -/
theorem c3_stale_result_discarded_witness :
    (dispatcherStep
        (dispatcherRun
          { generation := 1, activeTrigger := some "@",
            activeQuery := some "a", presented := [] }
          [DispatchEvent.dispatch "@" (some "al")])
        (.settle 1 [BeautifulMentionsItem.plain "stale"])).presented = [] :=
  (c3_stale_result_discarded
    { generation := 1, activeTrigger := some "@",
      activeQuery := some "a", presented := [] }
    [DispatchEvent.dispatch "@" (some "al")]
    [BeautifulMentionsItem.plain "stale"] (by decide)).2.trans (by decide)

/-- Claim C5: with `creatable` enabled for the trigger, a non-empty query that
matches no existing item's value appends exactly one synthetic entry as the
last pre-truncation entry, displaying the substituted template; an empty query
or an exact value match appends nothing. -/
theorem c5_creatable_entry (creatable : CreatableConfig) (trigger query : String)
    (items : List BeautifulMentionsMenuItem)
    (hen : creatableEnabled (resolveCreatable creatable trigger) = true) :
    (query ≠ "" → items.any (fun i => i.value == query) = false →
      appendCreatableEntry creatable trigger query items =
        items ++ [{ trigger := trigger, value := query,
                    displayValue :=
                      creatableDisplayValue (resolveCreatable creatable trigger)
                        query,
                    data := none }]) ∧
    (query = "" → appendCreatableEntry creatable trigger query items = items) ∧
    (items.any (fun i => i.value == query) = true →
      appendCreatableEntry creatable trigger query items = items) ∧
    (∀ b, resolveCreatable creatable trigger = .flag b →
      creatableDisplayValue (resolveCreatable creatable trigger) query =
        substName defaultCreatableTemplate query) := by
  refine ⟨?_, ?_, ?_, ?_⟩
  · intro hq hmatch
    have hq2 : (query == "") = false := by
      simp only [beq_eq_false_iff_ne, ne_eq]
      exact hq
    simp [appendCreatableEntry, hen, hq2, hmatch]
  · intro hq
    subst hq
    simp [appendCreatableEntry]
  · intro hmatch
    simp [appendCreatableEntry, hmatch]
  · intro b hb
    rw [hb]
    rfl

/-- Witness for C5: trigger "#", query "urgent", one non-matching existing
item — the creatable entry is appended last and displays the default template
with the placeholder substituted, "Add \x27urgent\x27". -/
theorem c5_creatable_entry_witness :
    appendCreatableEntry (.single (.flag true)) "#" "urgent"
        [{ trigger := "#", value := "urgency", displayValue := "urgency" }] =
      [{ trigger := "#", value := "urgency", displayValue := "urgency" },
       { trigger := "#", value := "urgent",
         displayValue := "Add \x27urgent\x27", data := none }] :=
  ((c5_creatable_entry (.single (.flag true)) "#" "urgent"
      [{ trigger := "#", value := "urgency", displayValue := "urgency" }]
      (by decide)).1 (by decide) (by decide)).trans (by decide)

/-- Boolean membership of a character in a character list. -/
def containsChar (c : Char) : List Char → Bool
  | [] => false
  | x :: xs => x == c || containsChar c xs

/-- The characters of a list strictly before the first occurrence of `c`. -/
def takeUntilChar (c : Char) : List Char → List Char
  | [] => []
  | x :: xs => if x == c then [] else x :: takeUntilChar c xs

/-- Modelled from the spec: the scanner configuration — the configured
triggers, the boundary punctuation characters, `allowSpaces` (default true,
line 162) and the optional `mentionEnclosure` (line 167), modelled as a single
delimiter character used both to open and to close, as in the quote
scenario. -/
structure ScannerConfig where
  triggers : List String
  punctuation : List Char
  allowSpaces : Bool := true
  mentionEnclosure : Option Char := none
deriving DecidableEq

/-- Modelled from the spec: the Boundary Classifier's validity of a trigger
position — the trigger must be preceded by start-of-text, whitespace or a
configured punctuation character. -/
def validPreceding (cfg : ScannerConfig) (prev : Option Char) : Bool :=
  match prev with
  | none => true
  | some c => c.isWhitespace || containsChar c cfg.punctuation

/-- Modelled from the spec: a character that terminates a query — punctuation
or whitespace, except that with `allowSpaces` whitespace is permitted and
only punctuation or a newline terminates. -/
def isTerminatorChar (cfg : ScannerConfig) (c : Char) : Bool :=
  if cfg.allowSpaces then containsChar c cfg.punctuation || c == '\n'
  else containsChar c cfg.punctuation || c.isWhitespace

/-- Modelled from the spec: the in-progress query at the caret when no
enclosure applies — the whole remainder, valid only when no terminating
boundary occurs inside it. -/
def plainQuery (cfg : ScannerConfig) (rest : List Char) :
    Option (Option String) :=
  if rest.any (isTerminatorChar cfg) then none else some (some ⟨rest⟩)

/-- Modelled from the spec: the Boundary Classifier's query extraction for the
text following a trigger, with the caret at end-of-text.  `some q` means the
trigger is active with query `q` (`q = none` when the trigger was just typed);
`none` means a boundary already terminated the query.  With an enclosure
opened immediately after the trigger, a closing character ends the query
(enclosure stripped) and an unterminated enclosure keeps the query open-ended
to end-of-text. -/
def extractQuery (cfg : ScannerConfig) (rest : List Char) :
    Option (Option String) :=
  match rest with
  | [] => some none
  | c :: inner =>
    match cfg.mentionEnclosure with
    | some enc =>
      if cfg.allowSpaces && c == enc then
        if containsChar enc inner then
          if inner.drop ((takeUntilChar enc inner).length + 1) = [] then
            some (some ⟨takeUntilChar enc inner⟩)
          else none
        else some (some ⟨inner⟩)
      else plainQuery cfg (c :: inner)
    | none => plainQuery cfg (c :: inner)

/-- A list is a literal prefix of another. -/
def listIsPrefixOf : List Char → List Char → Bool
  | [], _ => true
  | _ :: _, [] => false
  | a :: as, b :: bs => a == b && listIsPrefixOf as bs

/-- Modelled from the spec: the longest configured trigger that literally
matches at a position; on equal length the first-declared trigger wins. -/
def matchTriggerAt (cfg : ScannerConfig) (suffix : List Char) : Option String :=
  cfg.triggers.foldl
    (fun best tr =>
      if listIsPrefixOf tr.toList suffix then
        match best with
        | none => some tr
        | some b => if tr.length > b.length then some tr else best
      else best) none

/-- Modelled from the spec: the Trigger Scanner with the caret at end-of-text.
It returns the rightmost valid activation as `(text before the trigger,
trigger, query)`; a position further right is preferred, the trigger must be
validly preceded, and the remainder must form a valid in-progress query. -/
def scanSplitAux (cfg : ScannerConfig) :
    Option Char → List Char → Option (List Char × String × Option String)
  | _, [] => none
  | prev, c :: cs =>
    match scanSplitAux cfg (some c) cs with
    | some (pre, tr, q) => some (c :: pre, tr, q)
    | none =>
      match matchTriggerAt cfg (c :: cs) with
      | some tr =>
        if validPreceding cfg prev then
          match extractQuery cfg ((c :: cs).drop tr.length) with
          | some q => some ([], tr, q)
          | none => none
        else none
      | none => none

/-- The scanner's `(trigger, query)` view of a text buffer. -/
def scanText (cfg : ScannerConfig) (text : List Char) :
    Option (String × Option String) :=
  (scanSplitAux cfg none text).map (fun r => (r.2.1, r.2.2))

/-- Modelled from the spec: one scanner run against the previously reported
pair — the result pair together with the emitted "trigger changed"
notification, which fires only when the pair differs structurally from the
previous scan. -/
def scanStep (cfg : ScannerConfig)
    (lastPair : Option (String × Option String)) (text : List Char) :
    Option (String × Option String) × Bool :=
  (scanText cfg text, if scanText cfg text = lastPair then false else true)

theorem containsChar_append (c : Char) (l1 l2 : List Char) :
    containsChar c (l1 ++ l2) = (containsChar c l1 || containsChar c l2) := by
  induction l1 with
  | nil => simp [containsChar]
  | cons x xs ih => simp [containsChar, ih, Bool.or_assoc]

theorem takeUntilChar_append_self (c : Char) (l : List Char)
    (h : containsChar c l = false) : takeUntilChar c (l ++ [c]) = l := by
  induction l with
  | nil => simp [takeUntilChar]
  | cons x xs ih =>
    simp only [containsChar, Bool.or_eq_false_iff] at h
    simp [takeUntilChar, h.1, ih h.2]

/-- The scenario configuration of claim C6: trigger "@", `allowSpaces` on,
quote enclosure. -/
def enclosureExampleConfig : ScannerConfig :=
  { triggers := ["@"], punctuation := ['.', ','],
    allowSpaces := true, mentionEnclosure := some '\x22' }

/-- The scenario input of claim C6: the trigger, an opening quote, the text
John Doe and a closing quote. -/
def enclosureExampleInput : List Char := "@\x22John Doe\x22".toList

/-- Claim C6: with an enclosure opened right after the trigger, a closing
character ends the query with the enclosure stripped; without a closing
character the query is the whole remainder and grows with each further
non-closing character; on the scenario input the scanner reports trigger "@"
with query "John Doe". -/
theorem c6_enclosure_boundary (cfg : ScannerConfig) (enc c : Char)
    (rest : List Char) (henc : cfg.mentionEnclosure = some enc)
    (hsp : cfg.allowSpaces = true) (hopen : containsChar enc rest = false)
    (hc : (c == enc) = false) :
    extractQuery cfg (enc :: (rest ++ [enc])) = some (some ⟨rest⟩) ∧
    extractQuery cfg (enc :: rest) = some (some ⟨rest⟩) ∧
    extractQuery cfg (enc :: (rest ++ [c])) = some (some ⟨rest ++ [c]⟩) ∧
    scanText enclosureExampleConfig enclosureExampleInput =
      some ("@", some "John Doe") := by
  refine ⟨?_, ?_, ?_, by decide⟩
  · have h1 : containsChar enc (rest ++ [enc]) = true := by
      simp [containsChar_append, containsChar]
    have h2 := takeUntilChar_append_self enc rest hopen
    have h3 : (rest ++ [enc]).drop (rest.length + 1) = [] := by
      have hlen : (rest ++ [enc]).length = rest.length + 1 := by simp
      rw [← hlen, List.drop_length]
    simp [extractQuery, henc, hsp, h1, h2, h3]
  · cases rest with
    | nil => simp [extractQuery, henc, hsp, containsChar]
    | cons x xs =>
      simp only [containsChar, Bool.or_eq_false_iff] at hopen
      simp [extractQuery, henc, hsp, containsChar, hopen.1, hopen.2]
  · have h1 : containsChar enc (rest ++ [c]) = false := by
      simp [containsChar_append, containsChar, hopen, hc]
    simp [extractQuery, henc, hsp, h1]

/-- Witness for C6 at the scenario instance: quote enclosure, text John Doe,
appended character x. -/
theorem c6_enclosure_boundary_witness :
    extractQuery enclosureExampleConfig
        ('\x22' :: ("John Doe".toList ++ ['\x22'])) =
      some (some "John Doe") ∧
    extractQuery enclosureExampleConfig ('\x22' :: "John Doe".toList) =
      some (some "John Doe") ∧
    extractQuery enclosureExampleConfig
        ('\x22' :: ("John Doe".toList ++ ['x'])) =
      some (some "John Doex") := by
  have h := c6_enclosure_boundary enclosureExampleConfig '\x22' 'x'
    "John Doe".toList rfl rfl (by decide) (by decide)
  exact ⟨h.1.trans (by decide), h.2.1.trans (by decide),
    h.2.2.1.trans (by decide)⟩

/-- Claim C7: the scanner is idempotent — a second run on unchanged text
reports the same `(trigger, query)` pair and, the first run having recorded
that pair, emits no "trigger changed" notification. -/
theorem c7_scan_idempotent (cfg : ScannerConfig)
    (lastPair : Option (String × Option String)) (text : List Char) :
    (scanStep cfg (scanStep cfg lastPair text).1 text).1 =
      (scanStep cfg lastPair text).1 ∧
    (scanStep cfg (scanStep cfg lastPair text).1 text).2 = false := by
  simp [scanStep]

/-- Modelled from the spec: the document model read by the scanner — text runs
interleaved with atomic mention tokens carrying `trigger`, `value` and
optional `data`. -/
inductive EditorNode where
  | text : List Char → EditorNode
  | mention : String → String → Option BeautifulMentionsMetadata → EditorNode
deriving DecidableEq

/-- Modelled from the spec: the Trigger Scanner at document level, with the
caret at the end of the document.  The scanner reads the text around the
caret; a mention token is atomic, so when the node at the caret is not a text
run there is nothing to scan and no trigger is active. -/
def scanDocument (cfg : ScannerConfig) (doc : List EditorNode) :
    Option (String × Option String) :=
  match doc.getLast? with
  | some (.text s) => scanText cfg s
  | _ => none

/-- Modelled from the spec: the Insertion Coordinator — replace the scanned
span (trigger through end of the extracted query, enclosure included) by one
atomic mention token; the caret ends up immediately after the token.  Without
an active trigger the document is unchanged. -/
def insertMention (cfg : ScannerConfig) (doc : List EditorNode)
    (value : String) (data : Option BeautifulMentionsMetadata) :
    List EditorNode :=
  match doc.getLast? with
  | some (.text s) =>
    match scanSplitAux cfg none s with
    | some (pre, tr, _) => doc.dropLast ++ [.text pre, .mention tr value data]
    | none => doc
  | _ => doc

theorem getLast?_append_pair {α : Type} (xs : List α) (a b : α) :
    (xs ++ [a, b]).getLast? = some b := by
  have h : xs ++ [a, b] = (xs ++ [a]) ++ [b] := by simp
  rw [h, List.getLast?_concat]

/-- Claim C8: inserting a mention for the active trigger and re-running the
scanner at the resulting caret position — immediately after the inserted
token — reports no active trigger. -/
theorem c8_insert_closes_trigger (cfg : ScannerConfig) (doc : List EditorNode)
    (value : String) (data : Option BeautifulMentionsMetadata)
    (t : String) (q : Option String)
    (h : scanDocument cfg doc = some (t, q)) :
    scanDocument cfg (insertMention cfg doc value data) = none := by
  cases hlast : doc.getLast? with
  | none => simp [scanDocument, hlast] at h
  | some node =>
    cases node with
    | mention tr v d => simp [scanDocument, hlast] at h
    | text s =>
      simp only [scanDocument, hlast] at h
      cases hsplit : scanSplitAux cfg none s with
      | none => simp [scanText, hsplit] at h
      | some r =>
        obtain ⟨pre, tr, q2⟩ := r
        simp only [insertMention, hlast, hsplit]
        simp [scanDocument, getLast?_append_pair]

/-- Witness for C8: the scenario of the claim — active trigger "@" with query
"al" in the text run, inserting the mention for item value "alice" closes the
boundary. -/
theorem c8_insert_closes_trigger_witness :
    scanDocument { triggers := ["@"], punctuation := ['.', ','] }
        (insertMention { triggers := ["@"], punctuation := ['.', ','] }
          [.text "hi @al".toList] "alice" none) = none :=
  c8_insert_closes_trigger { triggers := ["@"], punctuation := ['.', ','] }
    [.text "hi @al".toList] "alice" none "@" (some "al") (by decide)

/-- Embeds the `SearchState` lifecycle of the specification's data model:
`Idle → Debouncing → InFlight → Resolved | Cancelled | Failed`. -/
inductive SearchState where
  | Idle
  | Debouncing
  | InFlight : Nat → SearchState
  | Resolved
  | Cancelled
  | Failed
deriving DecidableEq

/-- The presentation states of the specification: `Closed`, `Open/Loading`,
`Open/Ready` with the presented item list. -/
inductive PresentationStatus where
  | Closed
  | OpenLoading
  | OpenReady : List BeautifulMentionsMenuItem → PresentationStatus
deriving DecidableEq

/-- Whether a presentation status is a loading state. -/
def PresentationStatus.isLoading : PresentationStatus → Bool
  | .OpenLoading => true
  | _ => false

/-- Modelled from the spec: the engine's mutable unit — current generation,
search lifecycle and presentation status. -/
structure EngineState where
  generation : Nat
  search : SearchState
  status : PresentationStatus
deriving DecidableEq

/-- The outcome carried by a settled search lookup: a resolved item list or a
rejection. -/
inductive LookupOutcome where
  | success : List BeautifulMentionsMenuItem → LookupOutcome
  | failure : String → LookupOutcome
deriving DecidableEq

/-- A fatal engine error — the event that, per the specification, a failed
lookup must never produce. -/
inductive EngineFatal where
  | crash : String → EngineFatal
deriving DecidableEq

/-- Modelled from the spec: handling of a settled lookup.  A stale generation
is silently discarded; a resolved lookup presents its items; a rejected
lookup is recovered locally — `SearchState` becomes `Failed` and the
presentation becomes `Open/Ready` with an empty item list, a normal
"loading finished, no results" state — and is never propagated as a fatal
error. -/
def handleLookupSettled (s : EngineState) (generation : Nat)
    (outcome : LookupOutcome) : Except EngineFatal EngineState :=
  if generation = s.generation then
    match outcome with
    | .success items =>
      .ok { s with search := .Resolved, status := .OpenReady items }
    | .failure _ =>
      .ok { s with search := .Failed, status := .OpenReady [] }
  else
    .ok s

/-- Claim C9: a rejected lookup for the current generation yields the normal
recovered state — `SearchState.Failed`, presentation `Open/Ready` with an
empty item list and loading finished — and for every generation the rejection
handler returns a normal state, never a fatal error. -/
theorem c9_search_failure_recovered (s : EngineState) (g : Nat) (msg : String) :
    (g = s.generation →
      handleLookupSettled s g (.failure msg) =
        .ok { s with search := .Failed, status := .OpenReady [] } ∧
      ∀ s2, handleLookupSettled s g (.failure msg) = .ok s2 →
        s2.status.isLoading = false) ∧
    (∃ s3, handleLookupSettled s g (.failure msg) = .ok s3) := by
  constructor
  · intro hg
    constructor
    · simp [handleLookupSettled, hg]
    · intro s2 h2
      simp only [handleLookupSettled, hg, if_pos] at h2
      cases h2
      rfl
  · by_cases hg : g = s.generation
    · exact ⟨{ s with search := .Failed, status := .OpenReady [] },
        by simp [handleLookupSettled, hg]⟩
    · exact ⟨s, by simp [handleLookupSettled, hg]⟩

/-- Witness for C9: a rejected in-flight lookup at generation 3 recovers to
`Failed` with an open, empty, non-loading presentation. -/
theorem c9_search_failure_recovered_witness :
    handleLookupSettled
        { generation := 3, search := .InFlight 3, status := .OpenLoading }
        3 (.failure "network down") =
      .ok { generation := 3, search := .Failed, status := .OpenReady [] } :=
  ((c9_search_failure_recovered
    { generation := 3, search := .InFlight 3, status := .OpenLoading }
    3 "network down").1 rfl).1.trans rfl
